import Mathlib

/-!
Shallow embedding of the ticket-router core of `src/main.py` (Aessefin Ticket
Router).  Strings are modelled as `List Char`.  Python `str.strip` /
`re`-whitespace is modelled with the ASCII whitespace set, and Python's
case-insensitive regex matching (`re.IGNORECASE`) and `str.upper`/`str.lower`
are modelled as ASCII case mapping; all string literals appearing in the
source are ASCII, so this is faithful on every input the proofs touch.
Network transport (Gemini HTTP call, Monday GraphQL call, SMTP) is out of
scope: the oracle's parsed JSON verdict enters the model as an
`Option AiOutput` argument (`none` models "no key configured / transport or
parse failure / falsy response", exactly the condition `if ai_decision:` on
line 421), and the decision computed by the endpoint is returned as an
`Outcome` value instead of being dispatched to Monday or SMTP.
-/

/-- Conversion from Lean string literals to the `List Char` representation. -/
def chars (s : String) : List Char := s.data

/-- Whitespace test used by the Python `str.strip` / `str.split` / `\s` model
(space, tab, newline, carriage return, vertical tab, form feed). -/
def isWs (c : Char) : Bool :=
  c == ' ' || c == '\t' || c == '\n' || c == '\r' || c == Char.ofNat 11 || c == Char.ofNat 12

/-- Remove leading whitespace (left part of Python `str.strip`). -/
def ltrim (s : List Char) : List Char := s.dropWhile isWs

/-- Remove trailing whitespace (right part of Python `str.strip`). -/
def rtrim (s : List Char) : List Char := ((s.reverse).dropWhile isWs).reverse

/-- Python `str.strip()` with no argument. -/
def pyStrip (s : List Char) : List Char := rtrim (ltrim s)

/-- ASCII lower-casing of one character (model of Python case folding for the
ASCII literals used by the source). -/
def lowerChar (c : Char) : Char :=
  if 'A' ≤ c ∧ c ≤ 'Z' then Char.ofNat (c.toNat + 32) else c

/-- ASCII upper-casing of one character. -/
def upperChar (c : Char) : Char :=
  if 'a' ≤ c ∧ c ≤ 'z' then Char.ofNat (c.toNat - 32) else c

/-- Python `str.lower()` (ASCII model). -/
def lowerStr (s : List Char) : List Char := s.map lowerChar

/-- Python `str.upper()` (ASCII model). -/
def upperStr (s : List Char) : List Char := s.map upperChar

/-- Python `str.startswith` on the list model. -/
def startsWith : List Char → List Char → Bool
  | [], _ => true
  | _ :: _, [] => false
  | p :: ps, c :: cs => if p = c then startsWith ps cs else false

/-- Python substring containment (`needle in haystack`). -/
def containsSub (needle : List Char) : List Char → Bool
  | [] => startsWith needle []
  | c :: cs => startsWith needle (c :: cs) || containsSub needle cs

/-- Helper for `countWords`: the Boolean records whether the previous character
was inside a word. -/
def countWordsAux : List Char → Bool → Nat
  | [], _ => 0
  | c :: cs, inw =>
    if isWs c then countWordsAux cs false
    else (if inw then 0 else 1) + countWordsAux cs true

/-- Number of tokens of Python `str.split()` with no argument (count of maximal
non-whitespace runs). -/
def countWords (s : List Char) : Nat := countWordsAux s false

/-- Python `"\n".join(...)` on the list model. -/
def joinNl (ls : List (List Char)) : List Char := List.intercalate (chars "\n") ls

/-! ### Categories, priorities (src/main.py lines 105-108) -/

/-- Category literal. -/
def catCRM : List Char := chars "CRM"

/-- Category literal. -/
def catAMM : List Char := chars "AMMINISTRAZIONE"

/-- Category literal. -/
def catCONSOLE : List Char := chars "CONSOLE"

/-- Category literal (the long operations label). -/
def catOPS : List Char := chars "OPERATIONS (Cambi asseganzione, etc.)"

/-- `VALID_CATEGORIES` of src/main.py line 105 (a Python set of four strings;
membership is exact string equality, modelled as list membership). -/
def VALID_CATEGORIES : List (List Char) := [catCRM, catAMM, catCONSOLE, catOPS]

/-- `VALID_PRIORITIES` of src/main.py line 108. -/
def VALID_PRIORITIES : List (List Char) :=
  [chars "URGENTE", chars "MEDIA", chars "ALTA", chars "BASSA"]

/-! ### strip_any_leading_category (src/main.py lines 175-186)

The regex is `^\s*(?:CRM|AMMINISTRAZIONE|CONSOLE|OPERATIONS \(Cambi
asseganzione, etc\.\))\s*[:\-–—]?\s*` with `re.IGNORECASE`, applied by
`re.sub` to `text.strip()`, followed by `.strip()`.  The anchor `^` (without
MULTILINE) means at most one substitution happens, at the start. -/

/-- Punctuation class `[:\-–—]` of the category-stripping regex. -/
def isPunct (c : Char) : Bool := c == ':' || c == '-' || c == '–' || c == '—'

/-- Case-insensitive literal matching: consume `lit` from the front of the
second list, returning the remainder on success. -/
def matchCI : List Char → List Char → Option (List Char)
  | [], s => some s
  | _ :: _, [] => none
  | l :: ls, c :: cs => if lowerChar c = lowerChar l then matchCI ls cs else none

/-- The regex alternation `(?:CRM|AMMINISTRAZIONE|CONSOLE|OPERATIONS \(...\))`,
tried in the source's order. -/
def tryCats (s : List Char) : Option (List Char) :=
  match matchCI catCRM s with
  | some r => some r
  | none =>
    match matchCI catAMM s with
    | some r => some r
    | none =>
      match matchCI catCONSOLE s with
      | some r => some r
      | none => matchCI catOPS s

/-- The regex tail `\s*[:\-–—]?\s*` after the category literal. -/
def afterLit (s : List Char) : List Char :=
  let r1 := s.dropWhile isWs
  let r2 := match r1 with
    | c :: cs => if isPunct c then cs else r1
    | [] => []
  r2.dropWhile isWs

/-- One application of the anchored regex: `^\s*(?:cats)\s*[:\-–—]?\s*`. -/
def removeCatPrefix (s : List Char) : Option (List Char) :=
  match tryCats (s.dropWhile isWs) with
  | some r => some (afterLit r)
  | none => none

/-- `strip_any_leading_category` of src/main.py lines 175-186. -/
def strip_any_leading_category (text : List Char) : List Char :=
  if text = [] then text
  else
    let t := pyStrip text
    match removeCatPrefix t with
    | some r => pyStrip r
    | none => pyStrip t

/-! ### build_title_with_category (src/main.py lines 188-195), with the
default `max_len = 30` inlined (every call site uses the default). -/

/-- The core of the title: `strip_any_leading_category(candidate) or "Ticket"`. -/
def title_core (candidate : List Char) : List Char :=
  if strip_any_leading_category candidate = [] then chars "Ticket"
  else strip_any_leading_category candidate

/-- The untruncated title `f"{category}: {core}"`. -/
def title_clean (category candidate : List Char) : List Char :=
  category ++ chars ": " ++ title_core candidate

/-- `build_title_with_category` of src/main.py lines 188-195:
`clean if len(clean) <= max_len else clean[: max_len - 1] + "…"`. -/
def build_title_with_category (category candidate : List Char) : List Char :=
  if (title_clean category candidate).length ≤ 30 then title_clean category candidate
  else (title_clean category candidate).take 29 ++ chars "…"

/-- `first_sentence` of src/main.py lines 197-202:
`re.split(r"[.!?\n]", clean, maxsplit=1)[0].strip() or "Ticket"`. -/
def first_sentence (text : List Char) : List Char :=
  if text = [] then chars "Ticket"
  else
    let clean := strip_any_leading_category text
    let sent := pyStrip (clean.takeWhile
      (fun c => !(c == '.' || c == '!' || c == '?' || c == '\n')))
    if sent = [] then chars "Ticket" else sent

/-! ### filter_drive_links (src/main.py lines 204-209) -/

/-- A JSON value in an attachment list: a string, or anything else (Python
`isinstance(u, str)` is false on the latter). -/
inductive PyVal where
  | str (s : List Char)
  | nonstr
deriving DecidableEq

/-- The keep condition of the loop body on line 207. -/
def isDriveStr (s : List Char) : Bool :=
  containsSub (chars "drive.google.com") s || containsSub (chars "docs.google.com") s

/-- `filter_drive_links` of src/main.py lines 204-209, written as the same
left-to-right accumulation the `for`/`append` loop performs. -/
def filter_drive_links : List PyVal → List (List Char)
  | [] => []
  | PyVal.str s :: rest =>
    if isDriveStr s then s :: filter_drive_links rest else filter_drive_links rest
  | PyVal.nonstr :: rest => filter_drive_links rest

/-- The element-wise content of the loop, used to state what the filter keeps. -/
def drive_keep (u : PyVal) : Option (List Char) :=
  match u with
  | PyVal.str s => if isDriveStr s then some s else none
  | PyVal.nonstr => none

/-! ### Helper lemmas about trimming -/

/-- If `dropWhile` leaves a cons unchanged, its head fails the predicate. -/
theorem not_of_dropWhile_cons_eq {p : Char → Bool} {c : Char} {cs : List Char}
    (h : List.dropWhile p (c :: cs) = c :: cs) : p c = false := by
  by_contra hb
  have hp : p c = true := by
    cases hpc : p c with
    | true => rfl
    | false => exact absurd hpc hb
  rw [List.dropWhile_cons, hp] at h
  simp only [if_true] at h
  have hlen : (List.dropWhile p cs).length ≤ cs.length :=
    List.Sublist.length_le (List.dropWhile_sublist p)
  rw [h] at hlen
  simp at hlen

/-- `ltrim` is idempotent. -/
theorem ltrim_idem (s : List Char) : ltrim (ltrim s) = ltrim s :=
  List.dropWhile_idempotent isWs s

/-- `rtrim` is idempotent. -/
theorem rtrim_idem (s : List Char) : rtrim (rtrim s) = rtrim s := by
  simp [rtrim, List.dropWhile_idempotent]

/-- `ltrim` does nothing on a list whose head is not whitespace. -/
theorem ltrim_cons_of_not_ws {c : Char} (cs : List Char) (h : isWs c = false) :
    ltrim (c :: cs) = c :: cs := by
  simp [ltrim, List.dropWhile_cons, h]

/-- `rtrim` does nothing when the last element is not whitespace. -/
theorem rtrim_append_singleton (a : List Char) (c : Char) (h : isWs c = false) :
    rtrim (a ++ [c]) = a ++ [c] := by
  simp [rtrim, List.dropWhile_cons, h]

/-- A fixed point of `rtrim` stays fixed after prepending anything, provided it
is nonempty (so the non-whitespace last element is preserved). -/
theorem rtrim_append_of_fix (a b : List Char) (hbfix : rtrim b = b) (hbne : b ≠ []) :
    rtrim (a ++ b) = a ++ b := by
  obtain ⟨d, ds, hbrev⟩ : ∃ d ds, b.reverse = d :: ds := by
    cases hrev : b.reverse with
    | nil => exact absurd (List.reverse_eq_nil_iff.mp hrev) hbne
    | cons d ds => exact ⟨d, ds, rfl⟩
  have hdrop : List.dropWhile isWs b.reverse = b.reverse := by
    have := congrArg List.reverse hbfix
    rw [rtrim, List.reverse_reverse] at this
    exact this
  have hd : isWs d = false := by
    rw [hbrev] at hdrop
    exact not_of_dropWhile_cons_eq hdrop
  have hsplit : (a ++ b).reverse = d :: (ds ++ a.reverse) := by
    rw [List.reverse_append, hbrev]
    rfl
  rw [rtrim, hsplit, List.dropWhile_cons, hd]
  simp only [if_false, Bool.false_eq_true]
  rw [← hsplit, List.reverse_reverse]

/-- `ltrim`-fixed lists remain `ltrim`-fixed after `rtrim`. -/
theorem ltrim_rtrim_fix {t : List Char} (h : ltrim t = t) : ltrim (rtrim t) = rtrim t := by
  cases t with
  | nil => rfl
  | cons c cs =>
    have hc : isWs c = false := not_of_dropWhile_cons_eq h
    rw [rtrim, List.reverse_cons, List.dropWhile_append]
    split
    · simp [List.dropWhile_cons, hc, ltrim]
    · rw [List.reverse_append]
      simp only [List.reverse_cons, List.reverse_nil, List.nil_append, List.cons_append,
        List.nil_append]
      exact ltrim_cons_of_not_ws _ hc

/-- `pyStrip` output is `ltrim`-fixed. -/
theorem ltrim_pyStrip (s : List Char) : ltrim (pyStrip s) = pyStrip s :=
  ltrim_rtrim_fix (ltrim_idem s)

/-- `pyStrip` output is `rtrim`-fixed. -/
theorem rtrim_pyStrip (s : List Char) : rtrim (pyStrip s) = pyStrip s :=
  rtrim_idem (ltrim s)

/-- A list fixed by both trims is fixed by `pyStrip`. -/
theorem pyStrip_fix_of {s : List Char} (h1 : ltrim s = s) (h2 : rtrim s = s) :
    pyStrip s = s := by
  rw [pyStrip, h1, h2]

/-- The output of `strip_any_leading_category` is `ltrim`-fixed. -/
theorem ltrim_strip (x : List Char) :
    ltrim (strip_any_leading_category x) = strip_any_leading_category x := by
  unfold strip_any_leading_category
  split
  · next h => rw [h]; rfl
  · cases h : removeCatPrefix (pyStrip x) with
    | none => simp only [h]; exact ltrim_pyStrip (pyStrip x)
    | some r => simp only [h]; exact ltrim_pyStrip r

/-- The output of `strip_any_leading_category` is `rtrim`-fixed. -/
theorem rtrim_strip (x : List Char) :
    rtrim (strip_any_leading_category x) = strip_any_leading_category x := by
  unfold strip_any_leading_category
  split
  · next h => rw [h]; rfl
  · cases h : removeCatPrefix (pyStrip x) with
    | none => simp only [h]; exact rtrim_pyStrip (pyStrip x)
    | some r => simp only [h]; exact rtrim_pyStrip r

/-! ### Characterizing the category-stripping regex on prefixed strings -/

/-- Case-insensitive matching always consumes a verbatim copy of the literal. -/
theorem matchCI_self_append (lit rest : List Char) : matchCI lit (lit ++ rest) = some rest := by
  induction lit with
  | nil => rfl
  | cons c cs ih => simp [matchCI, ih]

/-- The alternation on a string starting with the `CRM` literal. -/
theorem tryCats_crm (rest : List Char) : tryCats (catCRM ++ rest) = some rest := by
  unfold tryCats
  rw [matchCI_self_append]

/-- The alternation on a string starting with the `AMMINISTRAZIONE` literal. -/
theorem tryCats_amm (rest : List Char) : tryCats (catAMM ++ rest) = some rest := by
  unfold tryCats
  have h1 : matchCI catCRM (catAMM ++ rest) = none := rfl
  rw [h1, matchCI_self_append]

/-- The alternation on a string starting with the `CONSOLE` literal. -/
theorem tryCats_console (rest : List Char) : tryCats (catCONSOLE ++ rest) = some rest := by
  unfold tryCats
  have h1 : matchCI catCRM (catCONSOLE ++ rest) = none := rfl
  have h2 : matchCI catAMM (catCONSOLE ++ rest) = none := rfl
  rw [h1, h2, matchCI_self_append]

/-- The alternation on a string starting with the long operations literal. -/
theorem tryCats_ops (rest : List Char) : tryCats (catOPS ++ rest) = some rest := by
  unfold tryCats
  have h1 : matchCI catCRM (catOPS ++ rest) = none := rfl
  have h2 : matchCI catAMM (catOPS ++ rest) = none := rfl
  have h3 : matchCI catCONSOLE (catOPS ++ rest) = none := rfl
  rw [h1, h2, h3, matchCI_self_append]

/-- On a string of the shape `cat ++ ": " ++ core` with `core` trimmed on both
sides, `strip_any_leading_category` removes exactly the category prefix.  The
hypotheses package the four concrete categories: a cons shape with
non-whitespace head, and the behaviour of the regex alternation. -/
theorem strip_cat_core (cat : List Char) (c0 : Char) (cs0 : List Char)
    (hcons : cat = c0 :: cs0) (hws : isWs c0 = false)
    (htry : ∀ rest, tryCats (cat ++ rest) = some rest)
    (core : List Char) (hl : ltrim core = core) (hr : rtrim core = core) :
    strip_any_leading_category (cat ++ ':' :: ' ' :: core) = core := by
  have hltrim : ∀ z : List Char, List.dropWhile isWs (cat ++ z) = cat ++ z := by
    intro z
    rw [hcons, List.cons_append, List.dropWhile_cons, hws]
    simp
  cases hcore : core with
  | nil =>
    subst hcore
    show strip_any_leading_category (cat ++ [':', ' ']) = []
    have hne2 : cat ++ [':', ' '] ≠ [] := by rw [hcons]; simp
    have hps : pyStrip (cat ++ [':', ' ']) = cat ++ [':'] := by
      have h2 : rtrim (cat ++ [':', ' ']) = cat ++ [':'] := by
        have hrev : (cat ++ [':', ' ']).reverse = ' ' :: ':' :: cat.reverse := by
          rw [List.reverse_append]; rfl
        rw [rtrim, hrev, List.dropWhile_cons, show isWs ' ' = true from by decide]
        simp only [if_true]
        rw [List.dropWhile_cons, show isWs ':' = false from by decide]
        simp
      rw [pyStrip, show ltrim (cat ++ [':', ' ']) = cat ++ [':', ' '] from hltrim _, h2]
    have hrm : removeCatPrefix (cat ++ [':']) = some [] := by
      unfold removeCatPrefix
      rw [hltrim [':'], htry [':']]
      rfl
    unfold strip_any_leading_category
    rw [if_neg hne2]
    simp only [hps, hrm]
    rfl
  | cons d ds =>
    rw [← hcore]
    have hne : cat ++ ':' :: ' ' :: core ≠ [] := by rw [hcons]; simp
    have hd : isWs d = false := by
      rw [hcore] at hl
      exact not_of_dropWhile_cons_eq hl
    have hassoc : cat ++ ':' :: ' ' :: core = (cat ++ [':', ' ']) ++ core := by
      rw [List.append_assoc]; rfl
    have hps : pyStrip (cat ++ ':' :: ' ' :: core) = cat ++ ':' :: ' ' :: core := by
      apply pyStrip_fix_of (hltrim (':' :: ' ' :: core))
      rw [hassoc]
      apply rtrim_append_of_fix _ _ hr
      rw [hcore]; simp
    have haft : afterLit (':' :: ' ' :: core) = core := by
      unfold afterLit
      rw [List.dropWhile_cons, show isWs ':' = false from by decide]
      simp only [if_false, Bool.false_eq_true]
      rw [show isPunct ':' = true from by decide]
      simp only [if_true]
      rw [List.dropWhile_cons, show isWs ' ' = true from by decide]
      simp only [if_true]
      exact hl
    have hrm : removeCatPrefix (cat ++ ':' :: ' ' :: core) = some core := by
      unfold removeCatPrefix
      rw [hltrim (':' :: ' ' :: core), htry (':' :: ' ' :: core)]
      show some (afterLit (':' :: ' ' :: core)) = some core
      rw [haft]
    unfold strip_any_leading_category
    rw [if_neg hne]
    simp only [hps, hrm]
    exact pyStrip_fix_of hl hr

/-! ### Title-builder lemmas -/

/-- The core of a title is never empty (the `or "Ticket"` fallback). -/
theorem title_core_ne_nil (x : List Char) : title_core x ≠ [] := by
  unfold title_core
  split
  · decide
  · next h => exact h

/-- The core of a title has no leading whitespace. -/
theorem ltrim_title_core (x : List Char) : ltrim (title_core x) = title_core x := by
  unfold title_core
  split
  · rfl
  · exact ltrim_strip x

/-- The core of a title has no trailing whitespace. -/
theorem rtrim_title_core (x : List Char) : rtrim (title_core x) = title_core x := by
  unfold title_core
  split
  · rfl
  · exact rtrim_strip x

/-- `title_clean` rearranged into cons form. -/
theorem title_clean_cons (cat x : List Char) :
    title_clean cat x = cat ++ ':' :: ' ' :: title_core x := by
  rw [title_clean, List.append_assoc]
  rfl

/-- Length of the untruncated title. -/
theorem title_clean_length (cat x : List Char) :
    (title_clean cat x).length = cat.length + 2 + (title_core x).length := by
  rw [title_clean_cons]
  simp [List.length_append]
  omega

/-- If the stripped candidate is known and nonempty, it is the title core. -/
theorem title_core_eq_of_strip {y c : List Char}
    (h : strip_any_leading_category y = c) (hc : c ≠ []) : title_core y = c := by
  unfold title_core
  rw [h, if_neg hc]

/-- The builder in the no-truncation regime. -/
theorem build_eq_clean_of_le (cat y : List Char) (h : (title_clean cat y).length ≤ 30) :
    build_title_with_category cat y = title_clean cat y := by
  unfold build_title_with_category
  rw [if_pos h]

/-- The builder in the truncation regime. -/
theorem build_eq_trunc_of_gt (cat y : List Char) (h : ¬ (title_clean cat y).length ≤ 30) :
    build_title_with_category cat y = (title_clean cat y).take 29 ++ chars "…" := by
  unfold build_title_with_category
  rw [if_neg h]

/-- Idempotence of the title builder for a category that the stripping regex
recognises and whose label has at most 15 characters (CRM, AMMINISTRAZIONE,
CONSOLE). -/
theorem build_idem_aux (cat : List Char) (c0 : Char) (cs0 : List Char)
    (hcons : cat = c0 :: cs0) (hws : isWs c0 = false)
    (htry : ∀ rest, tryCats (cat ++ rest) = some rest)
    (hlen : cat.length ≤ 15) (x : List Char) :
    build_title_with_category cat (build_title_with_category cat x)
      = build_title_with_category cat x := by
  have hl := ltrim_title_core x
  have hr := rtrim_title_core x
  have hne := title_core_ne_nil x
  by_cases hle : (title_clean cat x).length ≤ 30
  · have hb : build_title_with_category cat x = title_clean cat x :=
      build_eq_clean_of_le cat x hle
    have hstrip : strip_any_leading_category (title_clean cat x) = title_core x := by
      rw [title_clean_cons]
      exact strip_cat_core cat c0 cs0 hcons hws htry _ hl hr
    have hcore2 : title_core (title_clean cat x) = title_core x :=
      title_core_eq_of_strip hstrip hne
    have hclean2 : title_clean cat (title_clean cat x) = title_clean cat x := by
      rw [title_clean_cons cat (title_clean cat x), hcore2, ← title_clean_cons]
    rw [hb, build_eq_clean_of_le cat (title_clean cat x) (by rw [hclean2]; exact hle), hclean2]
  · have hb : build_title_with_category cat x = (title_clean cat x).take 29 ++ chars "…" :=
      build_eq_trunc_of_gt cat x hle
    have hcl := title_clean_length cat x
    have hcorelen : (27 - cat.length) + 2 ≤ (title_core x).length := by omega
    have htake : (title_clean cat x).take 29
        = cat ++ ':' :: ' ' :: (title_core x).take (27 - cat.length) := by
      rw [title_clean]
      have h2 : (chars ": ").length = 2 := rfl
      have h29 : (29 : Nat) = (cat ++ chars ": ").length + (27 - cat.length) := by
        rw [List.length_append, h2]
        omega
      rw [h29, List.take_append, List.append_assoc]
      rfl
    have hres : build_title_with_category cat x
        = cat ++ ':' :: ' ' :: ((title_core x).take (27 - cat.length) ++ chars "…") := by
      rw [hb, htake]
      simp [List.append_assoc]
    obtain ⟨d, ds, hcore⟩ : ∃ d ds, title_core x = d :: ds := by
      cases h : title_core x with
      | nil => exact absurd h hne
      | cons d ds => exact ⟨d, ds, rfl⟩
    have hd : isWs d = false := by
      rw [hcore] at hl
      exact not_of_dropWhile_cons_eq hl
    have htk : (title_core x).take (27 - cat.length) = d :: ds.take (27 - cat.length - 1) := by
      rw [hcore]
      cases hkk : 27 - cat.length with
      | zero => omega
      | succ k0 => simp
    have hl2 : ltrim ((title_core x).take (27 - cat.length) ++ chars "…")
        = (title_core x).take (27 - cat.length) ++ chars "…" := by
      rw [htk, List.cons_append]
      exact ltrim_cons_of_not_ws _ hd
    have hr2 : rtrim ((title_core x).take (27 - cat.length) ++ chars "…")
        = (title_core x).take (27 - cat.length) ++ chars "…" :=
      rtrim_append_singleton _ '…' (by decide)
    have hne2 : (title_core x).take (27 - cat.length) ++ chars "…" ≠ [] := by
      simp [chars]
    have hstrip2 : strip_any_leading_category
        (cat ++ ':' :: ' ' :: ((title_core x).take (27 - cat.length) ++ chars "…"))
        = (title_core x).take (27 - cat.length) ++ chars "…" :=
      strip_cat_core cat c0 cs0 hcons hws htry _ hl2 hr2
    have hcore2 : title_core (build_title_with_category cat x)
        = (title_core x).take (27 - cat.length) ++ chars "…" := by
      rw [hres]
      exact title_core_eq_of_strip hstrip2 hne2
    have htklen : ((title_core x).take (27 - cat.length)).length = 27 - cat.length := by
      rw [List.length_take]
      omega
    have hlen2 : (title_clean cat (build_title_with_category cat x)).length ≤ 30 := by
      rw [title_clean_length, hcore2, List.length_append, htklen]
      have h1 : (chars "…").length = 1 := rfl
      rw [h1]
      omega
    have hclean2 : title_clean cat (build_title_with_category cat x)
        = build_title_with_category cat x := by
      rw [title_clean_cons, hcore2, hres]
    rw [build_eq_clean_of_le cat (build_title_with_category cat x) hlen2, hclean2]

/-- For the long operations label, the "cat: " prefix alone exceeds the 30-char
cap, so the builder's output is one constant string whatever the candidate. -/
theorem build_ops_const (y : List Char) :
    build_title_with_category catOPS y = chars "OPERATIONS (Cambi asseganzion…" := by
  have hgt : ¬ (title_clean catOPS y).length ≤ 30 := by
    rw [title_clean_length]
    have h37 : catOPS.length = 37 := rfl
    omega
  rw [build_eq_trunc_of_gt catOPS y hgt, title_clean]
  rw [List.take_append_of_le_length (by decide : (29 : Nat) ≤ (catOPS ++ chars ": ").length)]
  rfl

/-! ### Oracle verdict validation (src/main.py lines 318-351)

The verdict arrives as parsed JSON; its fields are modelled structurally.  A
missing-or-null `next_action`/`router_decision`/`normalized_title` is `none`
(the source applies `or ""` / a `""` default before use); `categoria` and
`priorita` are modelled as the string read by `ai.get(..., "")` (a non-string
value there would raise and be mapped to the `invalid_ai_response` catch-all,
a path no claim touches).  Inside `monday_fields`, an absent
`"Descrizione Dettagliata"`/`"Link_of_the_record"` key is modelled as `""`
(the validator's own default) and `"Allegati"` as the list after the
source's `or []`. -/

/-- The `"Email"` value inside `monday_fields`: absent key, JSON null, or an
object with optional `email`/`text` keys (`obj none none` is the empty dict,
which is falsy in Python). -/
inductive EmailState where
  | absent
  | null
  | obj (e t : Option (List Char))
deriving DecidableEq

/-- The `monday_fields` bundle of the verdict, as the validator reads it. -/
structure AiFields where
  descrizione : List Char
  allegati : List PyVal
  link : List Char
  email : EmailState
deriving DecidableEq

/-- The oracle verdict (parsed JSON returned by `call_gemini`). -/
structure AiOutput where
  next_action : Option (List Char)
  router_decision : Option (List Char)
  categoria : List Char
  priorita : List Char
  normalized_title : Option (List Char)
  monday_fields : AiFields
deriving DecidableEq

/-- The `norm` dictionary built by `validate_ai_output` on success. -/
structure NormOut where
  title : List Char
  categoria : List Char
  priorita : List Char
  descrizione : List Char
  allegati : List PyVal
  link : List Char
  email : EmailState
deriving DecidableEq

/-- The empty dictionary returned in the `norm` slot on every failure path. -/
def emptyNorm : NormOut := ⟨[], [], [], [], [], [], EmailState.null⟩

/-- `fields.get("Email", {"email": "", "text": ""})` of line 346. -/
def normEmail : EmailState → EmailState
  | EmailState.absent => EmailState.obj (some []) (some [])
  | e => e

/-- `validate_ai_output` of src/main.py lines 318-351, returning the
`(accepted, reason, norm)` triple. -/
def validate_ai_output (ai : AiOutput) (form_categoria : List Char) :
    Bool × List Char × NormOut :=
  let next_action := pyStrip (lowerStr (ai.next_action.getD []))
  let router_dec := pyStrip (lowerStr (ai.router_decision.getD []))
  if next_action ≠ chars "create" ∨ router_dec ≠ chars "create" then
    (false, chars "ask_clarify", emptyNorm)
  else
    let categoria := pyStrip ai.categoria
    let priorita := pyStrip ai.priorita
    let title := pyStrip (ai.normalized_title.getD [])
    if categoria ≠ form_categoria ∨ categoria ∉ VALID_CATEGORIES then
      (false, chars "categoria_mismatch", emptyNorm)
    else if priorita ∉ VALID_PRIORITIES then
      (false, chars "priorita_invalid", emptyNorm)
    else if title = [] then
      (false, chars "title_missing", emptyNorm)
    else
      (true, [], ⟨title, categoria, priorita, ai.monday_fields.descrizione,
        ai.monday_fields.allegati, ai.monday_fields.link, normEmail ai.monday_fields.email⟩)

/-! ### The webhook decision (src/main.py lines 398-489)

The shared-secret check of lines 400-401 (a 401 on mismatch, before any body
processing) and the outbound Monday/SMTP calls are transport glue outside the
model; the model starts from the parsed body fields of lines 404-409 and ends
at the decision (which item would be created with which column values, or
which rejection reason is reported). -/

/-- The six `MONDAY_COLUMN_*` environment values; a column is written only if
its configured id is non-empty (the `if COL_X:` guards). -/
structure Config where
  colEmail : List Char
  colCategory : List Char
  colPriority : List Char
  colDescription : List Char
  colAttachments : List Char
  colLink : List Char
deriving DecidableEq

/-- The `col_vals` dictionary: `none` when the column guard skipped it. -/
structure ColVals where
  description : Option (List Char)
  email : Option (List Char × List Char)
  category : Option (List Char)
  priority : Option (List Char)
  attachments : Option (List Char)
  link : Option (List Char)
deriving DecidableEq

/-- The decision the endpoint reaches: create a board item (with its final
title and column values) or report a non-created outcome with a reason. -/
inductive Outcome where
  | createTicket (title : List Char) (cols : ColVals)
  | askClarify (reason : List Char)
deriving DecidableEq

/-- Whether an outcome is a creation. -/
def Outcome.isCreate : Outcome → Bool
  | Outcome.createTicket _ _ => true
  | Outcome.askClarify _ => false

/-- `is_ops` of line 461: `categoria.upper().startswith("OPERATIONS")`. -/
def isOps (categoria : List Char) : Bool :=
  startsWith (chars "OPERATIONS") (upperStr categoria)

/-- Lines 433-437: `email_obj = fields.get("Email") or {}` then per-key
defaults to the reporter address. -/
def resolveEmail (es : EmailState) (reporter : List Char) : List Char × List Char :=
  match es with
  | EmailState.obj e t => (e.getD reporter, t.getD reporter)
  | _ => (reporter, reporter)

/-- The `col_vals` built on the accepted-verdict path, lines 429-445. -/
def aiCols (cfg : Config) (norm : NormOut)
    (description categoria priorita reporter_email : List Char)
    (attachments : List PyVal) : ColVals :=
  { description := if cfg.colDescription ≠ [] then
      some (if norm.descrizione = [] then description else norm.descrizione) else none
  , email := if cfg.colEmail ≠ [] then some (resolveEmail norm.email reporter_email) else none
  , category := if cfg.colCategory ≠ [] then some categoria else none
  , priority := if cfg.colPriority ≠ [] then some priorita else none
  , attachments := if cfg.colAttachments ≠ [] then
      some (joinNl (filter_drive_links
        (if norm.allegati = [] then attachments else norm.allegati))) else none
  , link := if cfg.colLink ≠ [] then some norm.link else none }

/-- The `col_vals` built on the fallback path, lines 474-486. -/
def fallbackCols (cfg : Config)
    (description categoria priorita reporter_email link_of_record : List Char)
    (attachments : List PyVal) : ColVals :=
  { description := if cfg.colDescription ≠ [] then some description else none
  , email := if cfg.colEmail ≠ [] then some (reporter_email, reporter_email) else none
  , category := if cfg.colCategory ≠ [] then some categoria else none
  , priority := if cfg.colPriority ≠ [] then some priorita else none
  , attachments := if cfg.colAttachments ≠ [] ∧ attachments ≠ [] then
      some (joinNl (filter_drive_links attachments)) else none
  , link := if cfg.colLink ≠ [] ∧ link_of_record ≠ [] then some link_of_record else none }

/-- The decision logic of the `webhook` endpoint, lines 403-489.  `ai = none`
models `call_gemini` yielding nothing usable (no key, transport or parse
failure, or a falsy parsed value), i.e. the `if ai_decision:` test of line 421
failing. -/
def webhook (cfg : Config) (ai : Option AiOutput)
    (pDescription pCategoria pPriorita pEmail pLink : List Char)
    (attachments : List PyVal) : Outcome :=
  let description := pyStrip pDescription
  let categoria := pyStrip pCategoria
  let priorita := pyStrip pPriorita
  let reporter_email := pyStrip pEmail
  let link_of_record := pyStrip pLink
  match ai with
  | some a =>
    match validate_ai_output a categoria with
    | (true, _, norm) =>
      Outcome.createTicket (build_title_with_category categoria norm.title)
        (aiCols cfg norm description categoria priorita reporter_email attachments)
    | (false, reason, _) => Outcome.askClarify (chars "Rejected by AI: " ++ reason)
  | none =>
    if countWords (strip_any_leading_category description) < 10 ∧ isOps categoria = false then
      Outcome.askClarify (chars "Rejected: description too short/vague")
    else
      Outcome.createTicket
        (build_title_with_category categoria (first_sentence description))
        (fallbackCols cfg description categoria priorita reporter_email link_of_record
          attachments)

/-- A configuration with every column id set, for concrete evaluations. -/
def cfgAll : Config :=
  ⟨chars "email_mkw", chars "color_cat", chars "color_pri", chars "text_desc",
   chars "text_att", chars "long_text_link"⟩

/-! ### Unfolding helpers for the webhook and validator -/

/-- The fallback branch of the webhook, written out. -/
theorem webhook_none (cfg : Config) (d c p e l : List Char) (atts : List PyVal) :
    webhook cfg none d c p e l atts =
      if countWords (strip_any_leading_category (pyStrip d)) < 10 ∧ isOps (pyStrip c) = false
      then Outcome.askClarify (chars "Rejected: description too short/vague")
      else Outcome.createTicket
        (build_title_with_category (pyStrip c) (first_sentence (pyStrip d)))
        (fallbackCols cfg (pyStrip d) (pyStrip c) (pyStrip p) (pyStrip e) (pyStrip l) atts) :=
  rfl

/-- The oracle branch of the webhook, written out. -/
theorem webhook_some (cfg : Config) (a : AiOutput) (d c p e l : List Char) (atts : List PyVal) :
    webhook cfg (some a) d c p e l atts =
      match validate_ai_output a (pyStrip c) with
      | (true, _, norm) =>
        Outcome.createTicket (build_title_with_category (pyStrip c) norm.title)
          (aiCols cfg norm (pyStrip d) (pyStrip c) (pyStrip p) (pyStrip e) atts)
      | (false, reason, _) => Outcome.askClarify (chars "Rejected by AI: " ++ reason) :=
  rfl

/-- A failing validation makes the webhook report the prefixed reason. -/
theorem webhook_reject_of_validate (cfg : Config) (a : AiOutput) (d c p e l : List Char)
    (atts : List PyVal) (r : List Char) (n : NormOut)
    (h : validate_ai_output a (pyStrip c) = (false, r, n)) :
    webhook cfg (some a) d c p e l atts
      = Outcome.askClarify (chars "Rejected by AI: " ++ r) := by
  rw [webhook_some, h]

/-- A passing validation makes the webhook create, using the verdict bundle. -/
theorem webhook_create_of_validate (cfg : Config) (a : AiOutput) (d c p e l : List Char)
    (atts : List PyVal) (r : List Char) (n : NormOut)
    (h : validate_ai_output a (pyStrip c) = (true, r, n)) :
    webhook cfg (some a) d c p e l atts
      = Outcome.createTicket (build_title_with_category (pyStrip c) n.title)
          (aiCols cfg n (pyStrip d) (pyStrip c) (pyStrip p) (pyStrip e) atts) := by
  rw [webhook_some, h]

/-- With both action flags equal to `"create"`, the validator reduces to the
three field checks. -/
theorem validate_flags_ok (ai : AiOutput) (fc : List Char)
    (h1 : ai.next_action = some (chars "create"))
    (h2 : ai.router_decision = some (chars "create")) :
    validate_ai_output ai fc =
      (if pyStrip ai.categoria ≠ fc ∨ pyStrip ai.categoria ∉ VALID_CATEGORIES then
        (false, chars "categoria_mismatch", emptyNorm)
      else if pyStrip ai.priorita ∉ VALID_PRIORITIES then
        (false, chars "priorita_invalid", emptyNorm)
      else if pyStrip (ai.normalized_title.getD []) = [] then
        (false, chars "title_missing", emptyNorm)
      else (true, [], ⟨pyStrip (ai.normalized_title.getD []), pyStrip ai.categoria,
        pyStrip ai.priorita, ai.monday_fields.descrizione, ai.monday_fields.allegati,
        ai.monday_fields.link, normEmail ai.monday_fields.email⟩)) := by
  unfold validate_ai_output
  rw [h1, h2]
  simp only [Option.getD_some]
  rw [show pyStrip (lowerStr (chars "create")) = chars "create" from rfl]
  rw [if_neg (by simp)]

/-- A passing validation forces the submission category into the allow-list. -/
theorem validate_true_mem (a : AiOutput) (fc r : List Char) (n : NormOut)
    (h : validate_ai_output a fc = (true, r, n)) : fc ∈ VALID_CATEGORIES := by
  unfold validate_ai_output at h
  dsimp only at h
  split_ifs at h with hf hcat hpri htit <;> simp at h
  push_neg at hcat
  rw [← hcat.1]
  exact hcat.2

/-! ### startsWith lemmas -/

/-- Unfolding equation for `startsWith` on two cons cells. -/
theorem startsWith_cons_cons (p c : Char) (ps cs : List Char) :
    startsWith (p :: ps) (c :: cs) = if p = c then startsWith ps cs else false := rfl

/-- A list starts with itself as a prefix of any extension. -/
theorem startsWith_prefix_append (p rest : List Char) : startsWith p (p ++ rest) = true := by
  induction p with
  | nil => rfl
  | cons c cs ih => simp [startsWith_cons_cons, ih]

/-- A successful prefix test bounds the lengths. -/
theorem startsWith_length_le (p s : List Char) (h : startsWith p s = true) :
    p.length ≤ s.length := by
  induction p generalizing s with
  | nil => simp
  | cons c cs ih =>
    cases s with
    | nil => exact absurd h (by simp [startsWith])
    | cons d ds =>
      rw [startsWith_cons_cons] at h
      split_ifs at h with he
      have := ih ds h
      simp only [List.length_cons]
      omega

/-- A prefix of `a` is a prefix of `a ++ b`. -/
theorem startsWith_append_of (p a b : List Char) (h : startsWith p a = true) :
    startsWith p (a ++ b) = true := by
  induction p generalizing a with
  | nil => rfl
  | cons c cs ih =>
    cases a with
    | nil => exact absurd h (by simp [startsWith])
    | cons d ds =>
      rw [startsWith_cons_cons] at h
      split_ifs at h with he
      rw [List.cons_append, startsWith_cons_cons, if_pos he]
      exact ih ds h

/-- A short prefix of `a ++ b` is already a prefix of `a`. -/
theorem startsWith_append_left (p a b : List Char) (h : startsWith p (a ++ b) = true)
    (hlen : p.length ≤ a.length) : startsWith p a = true := by
  induction p generalizing a with
  | nil => rfl
  | cons c cs ih =>
    cases a with
    | nil => simp at hlen
    | cons d ds =>
      rw [List.cons_append, startsWith_cons_cons] at h
      split_ifs at h with he
      rw [startsWith_cons_cons, if_pos he]
      exact ih ds h (by simp only [List.length_cons] at hlen ⊢; omega)

/-- A prefix of `s.take n` is a prefix of `s`. -/
theorem startsWith_take (p s : List Char) (n : Nat) (h : startsWith p (s.take n) = true) :
    startsWith p s = true := by
  have hh := startsWith_append_of p (s.take n) (s.drop n) h
  rwa [List.take_append_drop] at hh

/-! ### The shape of a built title for short-enough categories -/

/-- For a category whose "cat: " prefix fits under the 29-character keep, the
built title is the prefixed core, possibly truncated with an ellipsis. -/
theorem build_shape (cat x : List Char) (hlen : cat.length ≤ 27) :
    build_title_with_category cat x = (cat ++ chars ": ") ++ title_core x
    ∨ (build_title_with_category cat x
        = (cat ++ chars ": ") ++ ((title_core x).take (27 - cat.length) ++ chars "…")
       ∧ 30 < (title_clean cat x).length) := by
  by_cases hle : (title_clean cat x).length ≤ 30
  · left
    rw [build_eq_clean_of_le cat x hle, title_clean]
  · right
    refine ⟨?_, by omega⟩
    rw [build_eq_trunc_of_gt cat x hle, title_clean]
    have h2 : (chars ": ").length = 2 := rfl
    have h29 : (29 : Nat) = (cat ++ chars ": ").length + (27 - cat.length) := by
      rw [List.length_append, h2]
      omega
    rw [h29, List.take_append, List.append_assoc]

/-! ### Concrete verdicts for witnesses and counterexamples -/

/-- A verdict with both action flags set to `"create"` and the given restated
category, priority, title and attachment list. -/
def aiCreateFlags (cat pri title : List Char) (alg : List PyVal) : AiOutput :=
  ⟨some (chars "create"), some (chars "create"), cat, pri, some title,
   ⟨chars "Descrizione dettagliata fornita dal modello", alg,
    chars "https://forms.example/rec/9",
    EmailState.obj (some (chars "utente@example.com")) (some (chars "utente@example.com"))⟩⟩

/-! ### The claims -/

/-- C1 counterexample: on the deterministic path the generic complaint
"please fix" submitted under the operations category produces a create
decision — the fallback gate has no pattern-based vagueness check, so the
claimed "ask_clarify regardless of category, never create" is false. -/
theorem C1_counterexample :
    (webhook cfgAll none (chars "please fix")
      (chars "OPERATIONS (Cambi asseganzione, etc.)") (chars "ALTA")
      (chars "reporter@example.com") (chars "https://forms.example/rec/1") []).isCreate
      = true := by decide

/-- C1 (amended): the deterministic path rejects exactly when the word count
of the category-stripped description is below 10 and the category is not
operations; it applies no generic-complaint pattern check, so a
pattern-matching description is rejected only through that word-count rule. -/
theorem C1_gate_characterization (cfg : Config) (d c p e l : List Char) (atts : List PyVal) :
    webhook cfg none d c p e l atts
        = Outcome.askClarify (chars "Rejected: description too short/vague")
      ↔ (countWords (strip_any_leading_category (pyStrip d)) < 10
         ∧ isOps (pyStrip c) = false) := by
  rw [webhook_none]
  by_cases h : countWords (strip_any_leading_category (pyStrip d)) < 10
      ∧ isOps (pyStrip c) = false
  · rw [if_pos h]
    simp [h]
  · rw [if_neg h]
    simp [h]

/-- C2 counterexample: a 10-word trimmed description starting with a category
label is rejected by the deterministic gate under a non-operations category,
because the gate counts words only after stripping the label — so the claimed
exact 9-vs-10 boundary on the trimmed description is false. -/
theorem C2_counterexample :
    countWords (pyStrip (chars "CRM: alpha beta gamma delta epsilon zeta eta theta iota")) = 10
    ∧ webhook cfgAll none (chars "CRM: alpha beta gamma delta epsilon zeta eta theta iota")
        (chars "CONSOLE") (chars "MEDIA") (chars "reporter@example.com")
        (chars "https://forms.example/rec/2") []
      = Outcome.askClarify (chars "Rejected: description too short/vague") := by
  constructor
  · decide
  · decide

/-- C2 (amended): for a non-operations category the deterministic gate rejects
exactly the descriptions whose category-stripped word count is below 10, and
accepts (creates) at 10 or more such words; for descriptions not beginning
with a category label this is the claimed trimmed-word-count boundary. -/
theorem C2_word_boundary (cfg : Config) (d c p e l : List Char) (atts : List PyVal)
    (hops : isOps (pyStrip c) = false) :
    (countWords (strip_any_leading_category (pyStrip d)) < 10 →
      webhook cfg none d c p e l atts
        = Outcome.askClarify (chars "Rejected: description too short/vague"))
    ∧ (10 ≤ countWords (strip_any_leading_category (pyStrip d)) →
      (webhook cfg none d c p e l atts).isCreate = true) := by
  constructor
  · intro hw
    rw [webhook_none, if_pos ⟨hw, hops⟩]
  · intro hw
    rw [webhook_none, if_neg (fun hcon => by omega)]
    rfl

/-- C2 witness: the boundary at a concrete 9-word and a concrete 10-word
description (neither starting with a category label). -/
theorem C2_witness :
    webhook cfgAll none (chars "alpha beta gamma delta epsilon zeta eta theta iota")
        (chars "CRM") (chars "ALTA") (chars "r@example.com") (chars "lnk") []
      = Outcome.askClarify (chars "Rejected: description too short/vague")
    ∧ (webhook cfgAll none
        (chars "alpha beta gamma delta epsilon zeta eta theta iota kappa")
        (chars "CRM") (chars "ALTA") (chars "r@example.com") (chars "lnk") []).isCreate
      = true :=
  ⟨(C2_word_boundary cfgAll (chars "alpha beta gamma delta epsilon zeta eta theta iota")
      (chars "CRM") (chars "ALTA") (chars "r@example.com") (chars "lnk") []
      (by decide)).1 (by decide),
   (C2_word_boundary cfgAll (chars "alpha beta gamma delta epsilon zeta eta theta iota kappa")
      (chars "CRM") (chars "ALTA") (chars "r@example.com") (chars "lnk") []
      (by decide)).2 (by decide)⟩

/-- C4 counterexample: an obtained verdict with an out-of-vocabulary priority
is not discarded in favour of the deterministic gate — the submission is
rejected immediately with `priorita_invalid`, even though the gate would have
accepted the same 12-word description (as the second conjunct shows). -/
theorem C4_counterexample :
    webhook cfgAll
        (some (aiCreateFlags (chars "CRM") (chars "WRONG") (chars "Fix login") []))
        (chars "Il modulo clienti del CRM mostra errore cinquecento quando apro le schede")
        (chars "CRM") (chars "ALTA") (chars "reporter@example.com")
        (chars "https://forms.example/rec/4") []
      = Outcome.askClarify (chars "Rejected by AI: priorita_invalid")
    ∧ (webhook cfgAll none
        (chars "Il modulo clienti del CRM mostra errore cinquecento quando apro le schede")
        (chars "CRM") (chars "ALTA") (chars "reporter@example.com")
        (chars "https://forms.example/rec/4") []).isCreate = true := by
  constructor
  · decide
  · decide

/-- C4 (amended): whenever a verdict is obtained and fails validation (for any
reason, including category mismatch or invalid priority), the webhook reports
an immediate rejection carrying the validator's reason; the deterministic gate
takes over only when no usable verdict is obtained at all. -/
theorem C4_invalid_verdict_rejects (cfg : Config) (a : AiOutput) (d c p e l : List Char)
    (atts : List PyVal) (r : List Char) (n : NormOut)
    (h : validate_ai_output a (pyStrip c) = (false, r, n)) :
    webhook cfg (some a) d c p e l atts
      = Outcome.askClarify (chars "Rejected by AI: " ++ r) :=
  webhook_reject_of_validate cfg a d c p e l atts r n h

/-- C4 witness: a verdict restating a valid category but an invalid priority
is rejected with the `priorita_invalid` reason. -/
theorem C4_witness :
    webhook cfgAll
        (some (aiCreateFlags (chars "CONSOLE") (chars "SUBITO") (chars "Titolo") []))
        (chars "una descrizione qualunque") (chars "CONSOLE") (chars "ALTA")
        (chars "r@example.com") (chars "lnk") []
      = Outcome.askClarify (chars "Rejected by AI: " ++ chars "priorita_invalid") :=
  C4_invalid_verdict_rejects cfgAll
    (aiCreateFlags (chars "CONSOLE") (chars "SUBITO") (chars "Titolo") [])
    (chars "una descrizione qualunque") (chars "CONSOLE") (chars "ALTA")
    (chars "r@example.com") (chars "lnk") [] (chars "priorita_invalid") emptyNorm (by decide)

/-- C8 counterexample: on the deterministic path the category is never checked
against the allow-list, so a 12-word description under the unknown category
"FOO" still produces a create decision — refuting "no ticket is ever created
for a category outside the allow-list". -/
theorem C8_counterexample :
    (webhook cfgAll none
      (chars "Impossibile accedere al gestionale da stamattina su tutte le postazioni in ufficio")
      (chars "FOO") (chars "ALTA") (chars "reporter@example.com")
      (chars "https://forms.example/rec/5") []).isCreate = true := by decide

/-- C8 (amended): category membership in the four-string allow-list is
enforced only on the oracle path: when a verdict is obtained for a submission
whose category is outside the allow-list, the outcome is a structured
rejection (never a creation, never a crash); the deterministic fallback path
performs no category validation. -/
theorem C8_oracle_path_validates (cfg : Config) (a : AiOutput) (d c p e l : List Char)
    (atts : List PyVal) (hc : pyStrip c ∉ VALID_CATEGORIES) :
    ∃ r, webhook cfg (some a) d c p e l atts = Outcome.askClarify r := by
  rcases hb : validate_ai_output a (pyStrip c) with ⟨b, r0, n0⟩
  cases b with
  | true => exact absurd (validate_true_mem a (pyStrip c) r0 n0 hb) hc
  | false =>
    exact ⟨chars "Rejected by AI: " ++ r0,
      webhook_reject_of_validate cfg a d c p e l atts r0 n0 hb⟩

/-- C8 witness: with a verdict present and the unknown category "NOPE", the
outcome is a rejection. -/
theorem C8_witness :
    ∃ r, webhook cfgAll
        (some (aiCreateFlags (chars "NOPE") (chars "ALTA") (chars "Titolo") []))
        (chars "descrizione qualunque di prova") (chars "NOPE") (chars "ALTA")
        (chars "r@example.com") (chars "lnk") []
      = Outcome.askClarify r :=
  C8_oracle_path_validates cfgAll
    (aiCreateFlags (chars "NOPE") (chars "ALTA") (chars "Titolo") [])
    (chars "descrizione qualunque di prova") (chars "NOPE") (chars "ALTA")
    (chars "r@example.com") (chars "lnk") [] (by decide)

/-- C9: the attachment filter returns exactly the string entries containing
one of the two accepted host fragments, in order, keeping duplicates and
silently dropping everything else (equality with a `filterMap` of the
element-wise keep function), and the spec's concrete example holds. -/
theorem C9_filter_drive_links :
    (∀ l : List PyVal, filter_drive_links l = l.filterMap drive_keep)
    ∧ filter_drive_links [PyVal.str (chars "https://drive.google.com/file/d/1"),
        PyVal.str (chars "https://evil.example/x")]
      = [chars "https://drive.google.com/file/d/1"] := by
  constructor
  · intro l
    induction l with
    | nil => rfl
    | cons u rest ih =>
      cases u with
      | str s =>
        by_cases h : isDriveStr s = true
        · simp [filter_drive_links, drive_keep, h, List.filterMap_cons, ih]
        · simp only [Bool.not_eq_true] at h
          simp [filter_drive_links, drive_keep, h, List.filterMap_cons, ih]
      | nonstr => simp [filter_drive_links, drive_keep, List.filterMap_cons, ih]
  · decide

/-- C10: the deterministic gate's word count is taken after stripping a
leading category label, so the label contributes no words: stripping a
"cat: " prefix (for any allow-listed category) from an already-trimmed
remainder leaves exactly the remainder, word count included; concretely, a
10-word trimmed description "CRM: " plus nine words is rejected. -/
theorem C10_label_words_not_counted :
    (∀ cat rest : List Char, cat ∈ VALID_CATEGORIES → pyStrip rest = rest →
      strip_any_leading_category (cat ++ chars ": " ++ rest) = rest
      ∧ countWords (strip_any_leading_category (cat ++ chars ": " ++ rest))
          = countWords rest)
    ∧ webhook cfgAll none (chars "CRM: uno due tre quattro cinque sei sette otto nove")
        (chars "CRM") (chars "BASSA") (chars "who@example.com")
        (chars "https://forms.example/rec/3") []
      = Outcome.askClarify (chars "Rejected: description too short/vague") := by
  constructor
  · intro cat rest hmem hstr
    have hl : ltrim rest = rest := by rw [← hstr]; exact ltrim_pyStrip rest
    have hr : rtrim rest = rest := by rw [← hstr]; exact rtrim_pyStrip rest
    have hs : strip_any_leading_category (cat ++ chars ": " ++ rest) = rest := by
      simp only [VALID_CATEGORIES, List.mem_cons, List.not_mem_nil, or_false] at hmem
      rcases hmem with h | h | h | h <;> subst h
      · show strip_any_leading_category (catCRM ++ ':' :: ' ' :: rest) = rest
        exact strip_cat_core catCRM 'C' (chars "RM") rfl (by decide) tryCats_crm rest hl hr
      · show strip_any_leading_category (catAMM ++ ':' :: ' ' :: rest) = rest
        exact strip_cat_core catAMM 'A' (chars "MMINISTRAZIONE") rfl (by decide)
          tryCats_amm rest hl hr
      · show strip_any_leading_category (catCONSOLE ++ ':' :: ' ' :: rest) = rest
        exact strip_cat_core catCONSOLE 'C' (chars "ONSOLE") rfl (by decide)
          tryCats_console rest hl hr
      · show strip_any_leading_category (catOPS ++ ':' :: ' ' :: rest) = rest
        exact strip_cat_core catOPS 'O' (chars "PERATIONS (Cambi asseganzione, etc.)") rfl
          (by decide) tryCats_ops rest hl hr
    exact ⟨hs, by rw [hs]⟩
  · decide

/-- C10 witness: the general stripping fact applied to a concrete category and
remainder. -/
theorem C10_witness :
    strip_any_leading_category (catCRM ++ chars ": " ++ chars "uno due tre")
      = chars "uno due tre" :=
  ((C10_label_words_not_counted.1 catCRM (chars "uno due tre")
    (by decide) (by decide)).1)

/-- C3: for an obtained verdict whose two action flags equal "create", the
webhook creates a ticket if and only if the restated (trimmed) category
exactly equals the submission's category and lies in the four-value
allow-list, the restated priority is canonical, and the title is non-empty;
each violation yields ask_clarify with the respective reason code
(`categoria_mismatch`, `priorita_invalid`, `title_missing`); on success the
final title is the title builder applied to the verdict's title and, when the
attachments column is configured, its value is the verdict's attachments
(falling back to the submission's when empty) passed through the drive-link
filter. -/
theorem C3_verdict_validation (cfg : Config) (a : AiOutput) (d c p e l : List Char)
    (atts : List PyVal)
    (h1 : a.next_action = some (chars "create"))
    (h2 : a.router_decision = some (chars "create")) :
    (¬ (pyStrip a.categoria = pyStrip c ∧ pyStrip a.categoria ∈ VALID_CATEGORIES) →
      webhook cfg (some a) d c p e l atts
        = Outcome.askClarify (chars "Rejected by AI: categoria_mismatch"))
    ∧ (pyStrip a.categoria = pyStrip c → pyStrip a.categoria ∈ VALID_CATEGORIES →
        pyStrip a.priorita ∉ VALID_PRIORITIES →
        webhook cfg (some a) d c p e l atts
          = Outcome.askClarify (chars "Rejected by AI: priorita_invalid"))
    ∧ (pyStrip a.categoria = pyStrip c → pyStrip a.categoria ∈ VALID_CATEGORIES →
        pyStrip a.priorita ∈ VALID_PRIORITIES →
        pyStrip (a.normalized_title.getD []) = [] →
        webhook cfg (some a) d c p e l atts
          = Outcome.askClarify (chars "Rejected by AI: title_missing"))
    ∧ (pyStrip a.categoria = pyStrip c → pyStrip a.categoria ∈ VALID_CATEGORIES →
        pyStrip a.priorita ∈ VALID_PRIORITIES →
        pyStrip (a.normalized_title.getD []) ≠ [] →
        webhook cfg (some a) d c p e l atts
          = Outcome.createTicket
              (build_title_with_category (pyStrip c)
                (pyStrip (a.normalized_title.getD [])))
              (aiCols cfg
                ⟨pyStrip (a.normalized_title.getD []), pyStrip a.categoria,
                 pyStrip a.priorita, a.monday_fields.descrizione, a.monday_fields.allegati,
                 a.monday_fields.link, normEmail a.monday_fields.email⟩
                (pyStrip d) (pyStrip c) (pyStrip p) (pyStrip e) atts)
        ∧ (cfg.colAttachments ≠ [] →
            (aiCols cfg
              ⟨pyStrip (a.normalized_title.getD []), pyStrip a.categoria,
               pyStrip a.priorita, a.monday_fields.descrizione, a.monday_fields.allegati,
               a.monday_fields.link, normEmail a.monday_fields.email⟩
              (pyStrip d) (pyStrip c) (pyStrip p) (pyStrip e) atts).attachments
              = some (joinNl (filter_drive_links
                  (if a.monday_fields.allegati = [] then atts
                   else a.monday_fields.allegati))))) := by
  have hv := validate_flags_ok a (pyStrip c) h1 h2
  refine ⟨?_, ?_, ?_, ?_⟩
  · intro hbad
    have hval : validate_ai_output a (pyStrip c)
        = (false, chars "categoria_mismatch", emptyNorm) := by
      rw [hv, if_pos (by tauto)]
    rw [webhook_reject_of_validate cfg a d c p e l atts _ _ hval]
    rfl
  · intro hceq hcmem hpri
    have hval : validate_ai_output a (pyStrip c)
        = (false, chars "priorita_invalid", emptyNorm) := by
      rw [hv, if_neg (by tauto), if_pos hpri]
    rw [webhook_reject_of_validate cfg a d c p e l atts _ _ hval]
    rfl
  · intro hceq hcmem hpri htit
    have hval : validate_ai_output a (pyStrip c)
        = (false, chars "title_missing", emptyNorm) := by
      rw [hv, if_neg (by tauto), if_neg (not_not_intro hpri), if_pos htit]
    rw [webhook_reject_of_validate cfg a d c p e l atts _ _ hval]
    rfl
  · intro hceq hcmem hpri htit
    constructor
    · have hval : validate_ai_output a (pyStrip c)
          = (true, [], ⟨pyStrip (a.normalized_title.getD []), pyStrip a.categoria,
              pyStrip a.priorita, a.monday_fields.descrizione, a.monday_fields.allegati,
              a.monday_fields.link, normEmail a.monday_fields.email⟩) := by
        rw [hv, if_neg (by tauto), if_neg (not_not_intro hpri), if_neg htit]
      exact webhook_create_of_validate cfg a d c p e l atts [] _ hval
    · intro hcfg
      simp [aiCols, hcfg]

/-- A concrete fully valid verdict used by the C3 witness. -/
def aiC3 : AiOutput :=
  aiCreateFlags (chars "CRM") (chars "ALTA") (chars "Accesso CRM bloccato")
    [PyVal.str (chars "https://drive.google.com/file/d/77"),
     PyVal.str (chars "https://evil.example/y")]

/-- C3 witness: a fully valid verdict on a CRM submission creates the ticket,
with the final title built from the verdict's title and the configured
attachments column holding the filtered verdict links. -/
theorem C3_witness :
    webhook cfgAll (some aiC3)
        (chars "Non riesco ad accedere al CRM da ieri sera con errore di autenticazione")
        (chars "CRM") (chars "ALTA") (chars "reporter@example.com")
        (chars "https://forms.example/rec/6") []
      = Outcome.createTicket
          (build_title_with_category (pyStrip (chars "CRM"))
            (pyStrip (aiC3.normalized_title.getD [])))
          (aiCols cfgAll
            ⟨pyStrip (aiC3.normalized_title.getD []), pyStrip aiC3.categoria,
             pyStrip aiC3.priorita, aiC3.monday_fields.descrizione,
             aiC3.monday_fields.allegati, aiC3.monday_fields.link,
             normEmail aiC3.monday_fields.email⟩
            (pyStrip (chars "Non riesco ad accedere al CRM da ieri sera con errore di autenticazione"))
            (pyStrip (chars "CRM")) (pyStrip (chars "ALTA"))
            (pyStrip (chars "reporter@example.com")) [])
    ∧ (aiCols cfgAll
        ⟨pyStrip (aiC3.normalized_title.getD []), pyStrip aiC3.categoria,
         pyStrip aiC3.priorita, aiC3.monday_fields.descrizione,
         aiC3.monday_fields.allegati, aiC3.monday_fields.link,
         normEmail aiC3.monday_fields.email⟩
        (pyStrip (chars "Non riesco ad accedere al CRM da ieri sera con errore di autenticazione"))
        (pyStrip (chars "CRM")) (pyStrip (chars "ALTA"))
        (pyStrip (chars "reporter@example.com")) []).attachments
      = some (joinNl (filter_drive_links
          (if aiC3.monday_fields.allegati = [] then []
           else aiC3.monday_fields.allegati))) := by
  have h := (C3_verdict_validation cfgAll aiC3
    (chars "Non riesco ad accedere al CRM da ieri sera con errore di autenticazione")
    (chars "CRM") (chars "ALTA") (chars "reporter@example.com")
    (chars "https://forms.example/rec/6") [] rfl rfl).2.2.2
    (by decide) (by decide) (by decide) (by decide)
  exact ⟨h.1, h.2 (by decide)⟩

/-- C5 counterexample: for a category outside the four recognised labels the
builder is not idempotent — re-applying it to its own output doubles the
prefix, because the stripper only removes the four known labels. -/
theorem C5_counterexample :
    build_title_with_category (chars "X")
        (build_title_with_category (chars "X") (chars "hello"))
      ≠ build_title_with_category (chars "X") (chars "hello") := by decide

/-- C5 (amended): the title builder is idempotent for every candidate string
when the category is one of the four allow-listed labels (for other category
strings the prefix is not re-stripped and duplicates). -/
theorem C5_idempotent_on_valid (cat x : List Char) (h : cat ∈ VALID_CATEGORIES) :
    build_title_with_category cat (build_title_with_category cat x)
      = build_title_with_category cat x := by
  simp only [VALID_CATEGORIES, List.mem_cons, List.not_mem_nil, or_false] at h
  rcases h with h | h | h | h <;> subst h
  · exact build_idem_aux catCRM 'C' (chars "RM") rfl (by decide) tryCats_crm (by decide) x
  · exact build_idem_aux catAMM 'A' (chars "MMINISTRAZIONE") rfl (by decide)
      tryCats_amm (by decide) x
  · exact build_idem_aux catCONSOLE 'C' (chars "ONSOLE") rfl (by decide)
      tryCats_console (by decide) x
  · rw [build_ops_const, build_ops_const]

/-- C5 witness: idempotence at a concrete CRM candidate long enough to hit the
truncation branch. -/
theorem C5_witness :
    build_title_with_category catCRM
        (build_title_with_category catCRM
          (chars "Serve un accesso VPN per il nuovo collega"))
      = build_title_with_category catCRM
          (chars "Serve un accesso VPN per il nuovo collega") :=
  C5_idempotent_on_valid catCRM (chars "Serve un accesso VPN per il nuovo collega")
    (by decide)

/-- C6 counterexample: a candidate already carrying a doubled category prefix
keeps it — the stripper removes only one leading label, so the output
"CRM: CRM: ..." does occur, contradicting "begins with the prefix exactly
once for every candidate". -/
theorem C6_counterexample :
    startsWith (chars "CRM: CRM: ")
      (build_title_with_category (chars "CRM") (chars "CRM: CRM: reset password"))
      = true := by decide

/-- C6 (amended): for the three category labels whose "cat: " prefix fits the
30-character cap, and a candidate that does not still begin with the prefix
after the one stripping pass, the built title begins with "cat: " and the
remainder does not begin with it again (one stacked prefix is stripped, a
second one survives; the long operations label is itself truncated). -/
theorem C6_single_prefix (cat x : List Char)
    (hmem : cat = catCRM ∨ cat = catAMM ∨ cat = catCONSOLE)
    (hx : startsWith (cat ++ chars ": ") (strip_any_leading_category x) = false) :
    startsWith (cat ++ chars ": ") (build_title_with_category cat x) = true
    ∧ startsWith (cat ++ chars ": ")
        ((build_title_with_category cat x).drop (cat.length + 2)) = false := by
  have hlen : cat.length ≤ 27 := by rcases hmem with h | h | h <;> subst h <;> decide
  have hdl : (cat ++ chars ": ").length = cat.length + 2 := by
    rw [List.length_append]
    rfl
  have hcore : startsWith (cat ++ chars ": ") (title_core x) = false := by
    unfold title_core
    split
    · rcases hmem with h | h | h <;> subst h <;> decide
    · exact hx
  rcases build_shape cat x hlen with hsh | ⟨hsh, hgt⟩
  · refine ⟨?_, ?_⟩
    · rw [hsh]
      exact startsWith_prefix_append _ _
    · rw [hsh, ← hdl, List.drop_left]
      exact hcore
  · refine ⟨?_, ?_⟩
    · rw [hsh]
      exact startsWith_prefix_append _ _
    · rw [hsh, ← hdl, List.drop_left]
      cases hsw : startsWith (cat ++ chars ": ")
          ((title_core x).take (27 - cat.length) ++ chars "…") with
      | false => rfl
      | true =>
        exfalso
        have hcl := title_clean_length cat x
        rcases hmem with h | h | h <;> subst h
        · have h3 : catCRM.length = 3 := rfl
          have h5 : (catCRM ++ chars ": ").length = 5 := rfl
          have hk : startsWith (catCRM ++ chars ": ")
              ((title_core x).take (27 - catCRM.length)) = true := by
            apply startsWith_append_left _ _ _ hsw
            rw [h5, List.length_take]
            omega
          have hc := startsWith_take _ _ _ hk
          rw [hc] at hcore
          exact Bool.noConfusion hcore
        · have hA : catAMM.length = 15 := rfl
          have hP : (catAMM ++ chars ": ").length = 17 := rfl
          have hle := startsWith_length_le _ _ hsw
          rw [hP, List.length_append, List.length_take,
            show (chars "…").length = 1 from rfl] at hle
          omega
        · have h7 : catCONSOLE.length = 7 := rfl
          have h9 : (catCONSOLE ++ chars ": ").length = 9 := rfl
          have hk : startsWith (catCONSOLE ++ chars ": ")
              ((title_core x).take (27 - catCONSOLE.length)) = true := by
            apply startsWith_append_left _ _ _ hsw
            rw [h9, List.length_take]
            omega
          have hc := startsWith_take _ _ _ hk
          rw [hc] at hcore
          exact Bool.noConfusion hcore

/-- C6 witness: the built title for a plain CRM candidate carries the "CRM: "
prefix exactly once. -/
theorem C6_witness :
    startsWith (catCRM ++ chars ": ")
        (build_title_with_category catCRM (chars "Need VPN access")) = true
    ∧ startsWith (catCRM ++ chars ": ")
        ((build_title_with_category catCRM (chars "Need VPN access")).drop
          (catCRM.length + 2)) = false :=
  C6_single_prefix catCRM (chars "Need VPN access") (by tauto) (by decide)

/-- C7 counterexample: for the long operations label the truncation cuts into
the category prefix itself — the 30-character output does not start with the
full "OPERATIONS (Cambi asseganzione, etc.): " prefix, contradicting "never
truncate below showing the full category prefix". -/
theorem C7_counterexample :
    startsWith (catOPS ++ chars ": ")
        (build_title_with_category catOPS
          (chars "Cambio assegnazione pratica numero 12345 urgente")) = false
    ∧ (build_title_with_category catOPS
        (chars "Cambio assegnazione pratica numero 12345 urgente")).length = 30 := by
  constructor
  · decide
  · decide

/-- C7 (amended): every built title has length at most 30; when the
untruncated "cat: core" exceeds 30 characters the result is exactly its first
29 characters followed by one ellipsis character; and the full category
prefix is always shown provided "cat: " itself fits in the 29 kept characters
(true for CRM, AMMINISTRAZIONE and CONSOLE, false only for the long
operations label). -/
theorem C7_truncation (cat x : List Char) :
    (build_title_with_category cat x).length ≤ 30
    ∧ (¬ (title_clean cat x).length ≤ 30 →
        build_title_with_category cat x = (title_clean cat x).take 29 ++ chars "…")
    ∧ (cat.length + 2 ≤ 29 →
        startsWith (cat ++ chars ": ") (build_title_with_category cat x) = true) := by
  refine ⟨?_, ?_, ?_⟩
  · by_cases hle : (title_clean cat x).length ≤ 30
    · rw [build_eq_clean_of_le cat x hle]
      exact hle
    · rw [build_eq_trunc_of_gt cat x hle, List.length_append, List.length_take,
        show (chars "…").length = 1 from rfl]
      omega
  · intro hgt
    exact build_eq_trunc_of_gt cat x hgt
  · intro hfit
    rcases build_shape cat x (by omega) with hsh | ⟨hsh, _⟩
    · rw [hsh]
      exact startsWith_prefix_append _ _
    · rw [hsh]
      exact startsWith_prefix_append _ _

/-- C7 witness: the three guarantees at a concrete long CRM candidate (the
truncation branch fires). -/
theorem C7_witness :
    (build_title_with_category (chars "CRM")
        (chars "Need VPN access for the whole new hire team")).length ≤ 30
    ∧ build_title_with_category (chars "CRM")
        (chars "Need VPN access for the whole new hire team")
      = (title_clean (chars "CRM")
          (chars "Need VPN access for the whole new hire team")).take 29 ++ chars "…"
    ∧ startsWith (chars "CRM" ++ chars ": ")
        (build_title_with_category (chars "CRM")
          (chars "Need VPN access for the whole new hire team")) = true :=
  ⟨(C7_truncation (chars "CRM") (chars "Need VPN access for the whole new hire team")).1,
   (C7_truncation (chars "CRM")
     (chars "Need VPN access for the whole new hire team")).2.1 (by decide),
   (C7_truncation (chars "CRM")
     (chars "Need VPN access for the whole new hire team")).2.2 (by decide)⟩
